import Mathlib

/-!
Shallow embedding of the autoregressive generation engine of
`src/pipelines/generation.rs` (the `LanguageGenerator` trait: prompt encoding,
configuration validation, batch expansion, the no-beam-search decoding loop and
its logits transformations), together with theorems checking the
natural-language specification against it.

Modelling conventions:
* token ids (`i64`) are `Int`; sizes and the `u64` parameters are `Nat`;
* `f64` logits and configuration values are modelled as exact rationals `ℚ`
  (the claims under study are algebraic, not about rounding);
* a 2-D tensor of shape `[batch, len]` is a `List (List α)` of its rows;
* Rust panics (`panic!` / `assert!`) are `Except GenError` errors;
* the model forward pass and the tokenizer are opaque capabilities stored in
  the `Generator` structure.
-/

namespace RustBert

/-- Errors raised by `generate` before the decoding loop: the `panic!` for a
missing BOS token with no prompt, and the `assert!` chain on the
configuration. -/
inductive GenError where
  | noBosNoPrompt
  | invalidTemperature
  | invalidTopP
  | invalidRepetitionPenalty
  | invalidLengthPenalty
  | invalidNumReturnSequences
  | invalidNumBeams
  | greedyNumReturnSequences
  | beamNumReturnSequences
deriving DecidableEq, Repr

/-- The decoding configuration: the parameters of `generate`
(`min_length, max_length, do_sample, early_stopping, num_beams, temperature,
top_k, top_p, repetition_penalty, length_penalty, no_repeat_ngram_size,
num_return_sequences`). -/
structure GenConfig where
  min_length : Nat
  max_length : Nat
  do_sample : Bool
  early_stopping : Bool
  num_beams : Nat
  temperature : ℚ
  top_k : Nat
  top_p : ℚ
  repetition_penalty : ℚ
  length_penalty : ℚ
  no_repeat_ngram_size : Nat
  num_return_sequences : Nat
deriving DecidableEq, Repr

/-- A generator façade: a tokenizer capability (`tokenize` composed with
`convert_tokens_to_ids`), the special-token ids resolved at construction, and
the model capability (`forward_t` followed by `outputs.select(1, -1)`, i.e. the
last-position logits for each row of the batch). -/
structure Generator where
  tokenize : String → List Int
  bos_token_id : Option Int
  eos_token_ids : Option (List Int)
  pad_token_id : Option Int
  forward : List (List Int) → List (List ℚ)

/-- Modelled from the spec: `truncate_sequences` of the `rust_tokenizers` crate
(not part of this repository's sources) is called with a single sequence, the
`LongestFirst` strategy and stride 0; per the spec it truncates **from the
front**, removing `num_truncated_tokens` leading ids. -/
def truncate_sequences (token_ids : List Int) (num_truncated_tokens : Nat) :
    List Int :=
  token_ids.drop num_truncated_tokens

/-- `encode_prompt_text`: tokenize the prompt, truncate to at most `max_len`
ids, and shape the result as a batch with a single row (`unsqueeze(0)`). -/
def encode_prompt_text (g : Generator) (prompt_text : String) (max_len : Nat) :
    List (List Int) :=
  let token_ids := g.tokenize prompt_text
  let num_truncated_tokens :=
    if token_ids.length > max_len then token_ids.length - max_len else 0
  [truncate_sequences token_ids num_truncated_tokens]

/-- One penalty update of `enforce_repetition_penalty`: read the current logit
of `token`, then write it back multiplied by the penalty if it is negative and
divided by the penalty otherwise (`index_fill_`). -/
def penalizeToken (row : List ℚ) (token : Int) (repetition_penalty : ℚ) :
    List ℚ :=
  let updated_value := row.getD token.toNat 0
  if updated_value < 0 then
    row.set token.toNat (updated_value * repetition_penalty)
  else
    row.set token.toNat (updated_value / repetition_penalty)

/-- Inner loop of `enforce_repetition_penalty` for one row `i`: for every
`token_position` of `prev_output_tokens.get(i)` in order, apply the penalty
update to the token found there. -/
def enforceRepetitionPenaltyRow (row : List ℚ) (history : List Int)
    (repetition_penalty : ℚ) : List ℚ :=
  history.foldl (fun r t => penalizeToken r t repetition_penalty) row

/-- `enforce_repetition_penalty`: for every row index
`i < batch_size * num_beams`, run the per-row penalty loop on row `i` of the
logits with row `i` of `prev_output_tokens` as history. -/
def enforce_repetition_penalty (next_token_logits : List (List ℚ))
    (batch_size num_beams : Nat) (prev_output_tokens : List (List Int))
    (repetition_penalty : ℚ) : List (List ℚ) :=
  (List.range (batch_size * num_beams)).foldl
    (fun logits i =>
      logits.set i
        (enforceRepetitionPenaltyRow (logits.getD i [])
          (prev_output_tokens.getD i []) repetition_penalty))
    next_token_logits

/-- The temperature stage of the decoding-loop body: inside `if do_sample`,
the logits are divided by `temperature` only when `temperature > 1`
(source condition `temperature > 1f64`). -/
def temperatureStage (next_token_logits : List (List ℚ)) (do_sample : Bool)
    (temperature : ℚ) : List (List ℚ) :=
  if do_sample && decide (1 < temperature) then
    next_token_logits.map (fun row => row.map (fun l => l / temperature))
  else
    next_token_logits

/-- Mutable state of the `generate_no_beam_search` while-loop, with two
instrumentation counters: `steps` counts executed loop iterations and
`forwardCalls` counts invocations of the model capability. -/
structure LoopState where
  input_ids : List (List Int)
  cur_len : Nat
  steps : Nat
  forwardCalls : Nat
deriving Repr

/-- One iteration of the `generate_no_beam_search` loop body:
`prepare_inputs_for_generation` (default hook: identity), the model forward
pass, the repetition-penalty stage (guarded by `repetition_penalty > 1`, called
with `num_beams = 1`), the temperature stage, then the `ToDo`-marked reset of
`input_ids` to its backup and the increment of `cur_len`. The selected
`next_token` is the unit value of the bare `if do_sample` expression, so the
computed logits do not flow into the state. -/
def nbsBody (g : Generator) (cfg : GenConfig) (batch_size : Nat)
    (input_ids_back : List (List Int)) (st : LoopState) : LoopState :=
  let prepared_input := st.input_ids
  let outputs := g.forward prepared_input
  let next_token_logits := outputs
  let next_token_logits :=
    if 1 < cfg.repetition_penalty then
      enforce_repetition_penalty next_token_logits batch_size 1 st.input_ids
        cfg.repetition_penalty
    else next_token_logits
  let _next_token_logits :=
    temperatureStage next_token_logits cfg.do_sample cfg.temperature
  { st with
    input_ids := input_ids_back
    cur_len := st.cur_len + 1
    steps := st.steps + 1
    forwardCalls := st.forwardCalls + 1 }

/-- The `generate_no_beam_search` while-loop as found in the source:
`while cur_len < 1` (the comment `ToDo: change threshold to while
cur_len < max_len` marks the intended condition). -/
def nbsLoop (g : Generator) (cfg : GenConfig) (batch_size : Nat)
    (input_ids_back : List (List Int)) (st : LoopState) : LoopState :=
  if st.cur_len < 1 then
    nbsLoop g cfg batch_size input_ids_back (nbsBody g cfg batch_size input_ids_back st)
  else st
termination_by 1 - st.cur_len
decreasing_by simp [nbsBody]; omega

/-- `generate_no_beam_search`: initialise `unfinished_sentences`,
`sentence_lengths`, `past`, back up `input_ids`, and run the decoding loop.
The Rust function returns `()`; this embedding returns the instrumentation
counters `(steps, forwardCalls)` of the loop instead. -/
def generate_no_beam_search (g : Generator) (input_ids : List (List Int))
    (cur_len : Nat) (cfg : GenConfig) (bos_token_id pad_token_id : Option Int)
    (eos_token_ids : Option (List Int)) (batch_size : Nat)
    (attention_mask : List (List Int)) : Nat × Nat :=
  let _unfinished_sentences := List.replicate batch_size (1 : Int)
  let _sentence_lengths := List.replicate batch_size (cfg.max_length : Int)
  let input_ids_back := input_ids
  let st := nbsLoop g cfg batch_size input_ids_back
    { input_ids := input_ids, cur_len := cur_len, steps := 0, forwardCalls := 0 }
  (st.steps, st.forwardCalls)

/-- The first block of `generate`: build the initial token-id batch, either by
encoding the prompt, or as the single row `[[bos]]`, or failing with the
`panic!` when neither a prompt nor a BOS id is available. -/
def initialInputIds (g : Generator) (prompt_text : Option String)
    (max_length : Nat) : Except GenError (List (List Int)) :=
  match prompt_text with
  | some text => .ok (encode_prompt_text g text max_length)
  | none =>
    match g.bos_token_id with
    | some bos_id => .ok [[bos_id]]
    | none => .error .noBosNoPrompt

/-- The `assert!` chain of `generate`, in source order, reporting the first
violated check. -/
def validationError (cfg : GenConfig) : Option GenError :=
  if ¬ (0 < cfg.temperature) then some .invalidTemperature
  else if ¬ (0 ≤ cfg.top_p ∧ cfg.top_p ≤ 1) then some .invalidTopP
  else if ¬ (1 ≤ cfg.repetition_penalty) then some .invalidRepetitionPenalty
  else if ¬ (0 < cfg.length_penalty) then some .invalidLengthPenalty
  else if ¬ (0 < cfg.num_return_sequences) then some .invalidNumReturnSequences
  else if ¬ (0 < cfg.num_beams) then some .invalidNumBeams
  else if ¬ cfg.do_sample then
    if cfg.num_beams = 1 then
      if cfg.num_return_sequences ≠ 1 then some .greedyNumReturnSequences
      else none
    else
      if ¬ (cfg.num_return_sequences ≤ cfg.num_beams) then
        some .beamNumReturnSequences
      else none
  else none

/-- Replicate each row of a batch `k` times in place, the effect of
`unsqueeze(1).expand([batch, k, cur_len]).contiguous().view([batch * k,
cur_len])`. -/
def expandRows (k : Nat) : List (List Int) → List (List Int)
  | [] => []
  | r :: rs => List.replicate k r ++ expandRows k rs

/-- The batch-expansion block of `generate`: with `effective_batch_mult` equal
to `num_return_sequences` when sampling and `1` otherwise, each row of the
token batch and of the attention mask is replicated
`effective_batch_mult * num_beams` times whenever `num_return_sequences > 1`
or `num_beams > 1`; otherwise both are passed through unchanged. -/
def expandInputsForGeneration (input_ids attention_mask : List (List Int))
    (do_sample : Bool) (num_return_sequences num_beams : Nat) :
    List (List Int) × List (List Int) :=
  let effective_batch_mult := if do_sample then num_return_sequences else 1
  if num_return_sequences > 1 ∨ num_beams > 1 then
    (expandRows (effective_batch_mult * num_beams) input_ids,
     expandRows (effective_batch_mult * num_beams) attention_mask)
  else
    (input_ids, attention_mask)

/-- Result of a `generate` call together with instrumentation: the returned
value (`Tensor::new()` is modelled as the empty batch `[]`), the number of
decoding-loop iterations executed, and the number of model invocations. -/
structure GenTrace where
  output : Except GenError (List (List Int))
  steps : Nat
  forwardCalls : Nat
deriving Repr

/-- `generate`, instrumented. In source order: initial input ids (prompt /
BOS / panic), the validation `assert!` chain, `cur_len` and `batch_size` from
the input shape, the default attention mask (`ne(pad)` when a pad id exists,
`ones_like` otherwise), the pad-token fallback to the first EOS id, batch
expansion, the call to `generate_no_beam_search` whose result is discarded,
and finally the returned `Tensor::new()`, an empty batch. -/
def generateTrace (g : Generator) (prompt_text : Option String)
    (cfg : GenConfig) (attention_mask : Option (List (List Int))) : GenTrace :=
  match initialInputIds g prompt_text cfg.max_length with
  | .error e => { output := .error e, steps := 0, forwardCalls := 0 }
  | .ok input_ids =>
    match validationError cfg with
    | some e => { output := .error e, steps := 0, forwardCalls := 0 }
    | none =>
      let cur_len := (input_ids.headD []).length
      let batch_size := input_ids.length
      let bos_token_id := g.bos_token_id
      let eos_token_ids := g.eos_token_ids
      let attention_mask :=
        match attention_mask with
        | some value => value
        | none =>
          match g.pad_token_id with
          | some pad_id =>
            input_ids.map (fun row => row.map (fun x => if x ≠ pad_id then (1 : Int) else 0))
          | none => input_ids.map (fun row => row.map (fun _ => (1 : Int)))
      let pad_token_id :=
        match g.pad_token_id with
        | some value => some value
        | none =>
          match eos_token_ids with
          | some eos_ids => some (eos_ids.headD 0)
          | none => none
      let (input_ids, attention_mask) :=
        expandInputsForGeneration input_ids attention_mask cfg.do_sample
          cfg.num_return_sequences cfg.num_beams
      let (steps, forwardCalls) :=
        generate_no_beam_search g input_ids cur_len cfg bos_token_id
          pad_token_id eos_token_ids batch_size attention_mask
      { output := .ok [], steps := steps, forwardCalls := forwardCalls }

/-- The public `generate` entry point: the value a caller receives. -/
def generate (g : Generator) (prompt_text : Option String) (cfg : GenConfig)
    (attention_mask : Option (List (List Int))) :
    Except GenError (List (List Int)) :=
  (generateTrace g prompt_text cfg attention_mask).output

/-- The disjunction of configuration defects listed by the specification. -/
def BadConfig (cfg : GenConfig) : Prop :=
  cfg.temperature ≤ 0 ∨ cfg.top_p < 0 ∨ 1 < cfg.top_p ∨
  cfg.repetition_penalty < 1 ∨ cfg.length_penalty ≤ 0 ∨
  cfg.num_return_sequences < 1 ∨ cfg.num_beams < 1 ∨
  (cfg.do_sample = false ∧ cfg.num_beams = 1 ∧ cfg.num_return_sequences ≠ 1) ∨
  (cfg.do_sample = false ∧ 1 < cfg.num_beams ∧
    cfg.num_beams < cfg.num_return_sequences)

instance (cfg : GenConfig) : Decidable (BadConfig cfg) := by
  unfold BadConfig; infer_instance

/-- One iterated penalty update on a single logit: multiply by the penalty if
negative, divide otherwise. Used to state how many times
`enforce_repetition_penalty` touches a repeated token. -/
def penaltyStep (repetition_penalty v : ℚ) : ℚ :=
  if v < 0 then v * repetition_penalty else v / repetition_penalty

/-- A concrete generator used as witness input: a tokenizer mapping every
prompt to the single id 5, GPT-2-style special tokens, and a model returning
two logits per row. -/
def gEx : Generator where
  tokenize := fun _ => [5]
  bos_token_id := some 50256
  eos_token_ids := some [50256]
  pad_token_id := none
  forward := fun ids => ids.map (fun _ => [0, 1])

/-- A second concrete generator, differing from `gEx` in every capability:
two-id tokenizer, no special tokens except padding, different model. -/
def gEx2 : Generator where
  tokenize := fun _ => [7, 8]
  bos_token_id := none
  eos_token_ids := none
  pad_token_id := some 0
  forward := fun _ => [[9]]

/-- A valid greedy decoding configuration. -/
def cfgGreedy : GenConfig where
  min_length := 0
  max_length := 20
  do_sample := false
  early_stopping := false
  num_beams := 1
  temperature := 1
  top_k := 0
  top_p := 1
  repetition_penalty := 1
  length_penalty := 1
  no_repeat_ngram_size := 0
  num_return_sequences := 1

/-- A valid sampling configuration with several return sequences and beams. -/
def cfgSample : GenConfig :=
  { cfgGreedy with
    do_sample := true
    temperature := 2
    repetition_penalty := 2
    num_return_sequences := 3
    num_beams := 2 }

/-- An invalid configuration: greedy decoding with two return sequences. -/
def cfgBad : GenConfig :=
  { cfgGreedy with num_return_sequences := 2 }

/-- A valid configuration with `max_length = 0`. -/
def cfgMaxZero : GenConfig :=
  { cfgGreedy with max_length := 0 }

theorem nbsLoop_exit (g : Generator) (cfg : GenConfig) (batch_size : Nat)
    (input_ids_back : List (List Int)) (st : LoopState)
    (h : 1 ≤ st.cur_len) : nbsLoop g cfg batch_size input_ids_back st = st := by
  rw [nbsLoop]
  simp [Nat.not_lt.mpr h]

theorem nbsBody_cur_len (g : Generator) (cfg : GenConfig) (batch_size : Nat)
    (input_ids_back : List (List Int)) (st : LoopState) :
    (nbsBody g cfg batch_size input_ids_back st).cur_len = st.cur_len + 1 := by
  simp [nbsBody]

theorem generate_no_beam_search_counts_pos (g : Generator)
    (input_ids : List (List Int)) (cur_len : Nat) (cfg : GenConfig)
    (bos_token_id pad_token_id : Option Int)
    (eos_token_ids : Option (List Int)) (batch_size : Nat)
    (attention_mask : List (List Int)) (h : 1 ≤ cur_len) :
    generate_no_beam_search g input_ids cur_len cfg bos_token_id pad_token_id
      eos_token_ids batch_size attention_mask = (0, 0) := by
  simp only [generate_no_beam_search]
  rw [nbsLoop_exit]
  exact h

theorem generate_no_beam_search_counts_zero (g : Generator)
    (input_ids : List (List Int)) (cfg : GenConfig)
    (bos_token_id pad_token_id : Option Int)
    (eos_token_ids : Option (List Int)) (batch_size : Nat)
    (attention_mask : List (List Int)) :
    generate_no_beam_search g input_ids 0 cfg bos_token_id pad_token_id
      eos_token_ids batch_size attention_mask = (1, 1) := by
  simp only [generate_no_beam_search]
  rw [nbsLoop]
  rw [if_pos (by omega : (0 : Nat) < 1)]
  rw [nbsLoop_exit]
  · simp [nbsBody]
  · simp [nbsBody]

theorem generateTrace_success (g : Generator) (prompt_text : Option String)
    (cfg : GenConfig) (attention_mask : Option (List (List Int)))
    (ids : List (List Int))
    (hids : initialInputIds g prompt_text cfg.max_length = .ok ids)
    (hlen : 1 ≤ (ids.headD []).length)
    (hval : validationError cfg = none) :
    generateTrace g prompt_text cfg attention_mask =
      { output := .ok [], steps := 0, forwardCalls := 0 } := by
  unfold generateTrace
  rw [hids, hval]
  simp only
  rw [generate_no_beam_search_counts_pos]
  exact hlen

theorem generateTrace_empty_row (g : Generator) (prompt_text : Option String)
    (cfg : GenConfig) (attention_mask : Option (List (List Int)))
    (ids : List (List Int))
    (hids : initialInputIds g prompt_text cfg.max_length = .ok ids)
    (hlen : (ids.headD []).length = 0)
    (hval : validationError cfg = none) :
    generateTrace g prompt_text cfg attention_mask =
      { output := .ok [], steps := 1, forwardCalls := 1 } := by
  unfold generateTrace
  rw [hids, hval]
  simp only [hlen]
  rw [generate_no_beam_search_counts_zero]

set_option maxHeartbeats 1000000 in
theorem validationError_eq_none_iff (cfg : GenConfig) :
    validationError cfg = none ↔ ¬ BadConfig cfg := by
  constructor
  · intro h hbad
    unfold validationError at h
    unfold BadConfig at hbad
    split_ifs at h with h1 h2 h3 h4 h5 h6 h7 h8 h9 h10 <;>
      try exact Option.noConfusion h
    all_goals
      rcases hbad with ht | htp | htp2 | hrp | hlp | hR | hB |
        ⟨hds, hb1, hr1⟩ | ⟨hds, hb2, hrb⟩
    all_goals first
      | linarith
      | omega
      | simp_all
  · intro hbad
    unfold validationError
    have ht : 0 < cfg.temperature := by
      by_contra hc; exact hbad (Or.inl (not_lt.mp hc))
    have htp : 0 ≤ cfg.top_p ∧ cfg.top_p ≤ 1 := by
      constructor
      · by_contra hc; exact hbad (Or.inr (Or.inl (not_le.mp hc)))
      · by_contra hc; exact hbad (Or.inr (Or.inr (Or.inl (not_le.mp hc))))
    have hrp : 1 ≤ cfg.repetition_penalty := by
      by_contra hc
      exact hbad (Or.inr (Or.inr (Or.inr (Or.inl (not_le.mp hc)))))
    have hlp : 0 < cfg.length_penalty := by
      by_contra hc
      exact hbad (Or.inr (Or.inr (Or.inr (Or.inr (Or.inl (not_lt.mp hc))))))
    have hR : 0 < cfg.num_return_sequences := by
      by_contra hc
      exact hbad (Or.inr (Or.inr (Or.inr (Or.inr (Or.inr (Or.inl (by omega)))))))
    have hB : 0 < cfg.num_beams := by
      by_contra hc
      exact hbad (Or.inr (Or.inr (Or.inr (Or.inr (Or.inr (Or.inr
        (Or.inl (by omega))))))))
    rw [if_neg (not_not_intro ht), if_neg (not_not_intro htp),
        if_neg (not_not_intro hrp), if_neg (not_not_intro hlp),
        if_neg (not_not_intro hR), if_neg (not_not_intro hB)]
    by_cases hds : cfg.do_sample = true
    · rw [if_neg (not_not_intro hds)]
    · rw [if_pos hds]
      have hdsf : cfg.do_sample = false := by simpa using hds
      by_cases hb1 : cfg.num_beams = 1
      · rw [if_pos hb1]
        have hr1 : cfg.num_return_sequences = 1 := by
          by_contra hc
          exact hbad (Or.inr (Or.inr (Or.inr (Or.inr (Or.inr (Or.inr (Or.inr
            (Or.inl ⟨hdsf, hb1, hc⟩))))))))
        rw [if_neg (not_not_intro hr1)]
      · rw [if_neg hb1]
        have hrb : cfg.num_return_sequences ≤ cfg.num_beams := by
          by_contra hc
          exact hbad (Or.inr (Or.inr (Or.inr (Or.inr (Or.inr (Or.inr (Or.inr
            (Or.inr ⟨hdsf, by omega, by omega⟩))))))))
        rw [if_neg (not_not_intro hrb)]

/-- Claim C5: a configuration violating any of the listed checks makes the
call fail fatally before any model invocation, and a configuration violating
none of them passes the whole validation chain. -/
theorem generate_validation_rejects_bad_config (g : Generator)
    (prompt_text : Option String) (cfg : GenConfig)
    (attention_mask : Option (List (List Int))) :
    (BadConfig cfg →
      (∃ e, (generateTrace g prompt_text cfg attention_mask).output = .error e) ∧
      (generateTrace g prompt_text cfg attention_mask).forwardCalls = 0) ∧
    (¬ BadConfig cfg → validationError cfg = none) := by
  constructor
  · intro hbad
    have hv : validationError cfg ≠ none := fun hn =>
      (validationError_eq_none_iff cfg).mp hn hbad
    obtain ⟨e, he⟩ := Option.ne_none_iff_exists.mp hv
    unfold generateTrace
    cases hinit : initialInputIds g prompt_text cfg.max_length with
    | error e2 => exact ⟨⟨e2, rfl⟩, rfl⟩
    | ok ids =>
      rw [← he]
      exact ⟨⟨e, rfl⟩, rfl⟩
  · exact (validationError_eq_none_iff cfg).mpr

theorem generate_validation_rejects_bad_config_witness :
    (∃ e, (generateTrace gEx (some "x") cfgBad none).output = .error e) ∧
    (generateTrace gEx (some "x") cfgBad none).forwardCalls = 0 :=
  (generate_validation_rejects_bad_config gEx (some "x") cfgBad none).1
    (by decide)

/-- Claim C6: with no prompt text, `generate` fails fatally before any
decoding step when no BOS id is configured, and when a BOS id is configured
the initial batch is exactly the single row `[bos]`. -/
theorem generate_without_prompt_bos (g : Generator) (cfg : GenConfig)
    (attention_mask : Option (List (List Int))) :
    (g.bos_token_id = none →
      (generateTrace g none cfg attention_mask).output = .error .noBosNoPrompt ∧
      (generateTrace g none cfg attention_mask).steps = 0) ∧
    (∀ bos, g.bos_token_id = some bos →
      initialInputIds g none cfg.max_length = .ok [[bos]]) := by
  constructor
  · intro h
    have hinit : initialInputIds g none cfg.max_length = .error .noBosNoPrompt := by
      simp [initialInputIds, h]
    unfold generateTrace
    rw [hinit]
    exact ⟨rfl, rfl⟩
  · intro bos h
    simp [initialInputIds, h]

theorem generate_without_prompt_bos_witness :
    ((generateTrace gEx2 none cfgGreedy none).output = .error .noBosNoPrompt ∧
      (generateTrace gEx2 none cfgGreedy none).steps = 0) ∧
    initialInputIds gEx none cfgGreedy.max_length = .ok [[50256]] :=
  ⟨(generate_without_prompt_bos gEx2 cfgGreedy none).1 (by decide),
   (generate_without_prompt_bos gEx cfgGreedy none).2 50256 (by decide)⟩

/-- Claim C2: whenever the initial encoded batch exists with a non-empty row
and validation passes, the decoding-loop body runs zero times, the model is
never invoked, and the result of `generate` is the same for any two such
calls, whatever their generator, prompt, configuration and attention mask. -/
theorem generate_decoding_loop_body_never_runs (g₁ g₂ : Generator)
    (p₁ p₂ : Option String) (cfg₁ cfg₂ : GenConfig)
    (am₁ am₂ : Option (List (List Int))) (ids₁ ids₂ : List (List Int))
    (h₁ : initialInputIds g₁ p₁ cfg₁.max_length = .ok ids₁)
    (hl₁ : 1 ≤ (ids₁.headD []).length)
    (hv₁ : validationError cfg₁ = none)
    (h₂ : initialInputIds g₂ p₂ cfg₂.max_length = .ok ids₂)
    (hl₂ : 1 ≤ (ids₂.headD []).length)
    (hv₂ : validationError cfg₂ = none) :
    (generateTrace g₁ p₁ cfg₁ am₁).steps = 0 ∧
    (generateTrace g₁ p₁ cfg₁ am₁).forwardCalls = 0 ∧
    generateTrace g₁ p₁ cfg₁ am₁ = generateTrace g₂ p₂ cfg₂ am₂ := by
  rw [generateTrace_success g₁ p₁ cfg₁ am₁ ids₁ h₁ hl₁ hv₁,
      generateTrace_success g₂ p₂ cfg₂ am₂ ids₂ h₂ hl₂ hv₂]
  exact ⟨rfl, rfl, rfl⟩

theorem generate_decoding_loop_body_never_runs_witness :
    (generateTrace gEx (some "Hello") cfgGreedy none).steps = 0 ∧
    (generateTrace gEx (some "Hello") cfgGreedy none).forwardCalls = 0 ∧
    generateTrace gEx (some "Hello") cfgGreedy none =
      generateTrace gEx2 (some "abc") cfgSample (some [[1, 1]]) :=
  generate_decoding_loop_body_never_runs gEx gEx2 (some "Hello") (some "abc")
    cfgGreedy cfgSample none (some [[1, 1]]) [[5]] [[7, 8]]
    (by rfl) (by decide) (by decide) (by rfl) (by decide) (by decide)

/-- Claim C1 (code bug): at a valid greedy call with a prompt and
`num_return_sequences = 1`, `generate` succeeds yet returns the empty batch
modelling `Tensor::new()` — zero sequences instead of one. -/
theorem generate_returns_empty_batch :
    generate gEx (some "Hello") cfgGreedy none = .ok [] ∧
    cfgGreedy.num_return_sequences = 1 := by
  have h := generateTrace_success gEx (some "Hello") cfgGreedy none [[5]]
    (by rfl) (by decide) (by decide)
  unfold generate
  rw [h]
  exact ⟨rfl, rfl⟩

/-- Claim C9 (code bug): with `max_length = 0` and a prompt whose encoding is
truncated to an empty row, the decoding loop still executes one step — the
loop condition is the placeholder `cur_len < 1`, not the intended
`cur_len < max_len` — so `max_length` does not bound the step count. -/
theorem decoding_step_exceeds_max_length_zero :
    (generateTrace gEx (some "a") cfgMaxZero none).steps = 1 ∧
    cfgMaxZero.max_length = 0 := by
  have h := generateTrace_empty_row gEx (some "a") cfgMaxZero none [[]]
    (by rfl) (by rfl) (by decide)
  rw [h]
  exact ⟨rfl, rfl⟩

/-- Claim C10: `generate` is deterministic — two calls with the same
generator (model and tokenizer state), prompt, attention mask and greedy
configuration return the same value; the embedding is a pure function and the
source consumes no randomness. -/
theorem generate_greedy_deterministic (g : Generator) (p : Option String)
    (cfg : GenConfig) (attention_mask : Option (List (List Int)))
    (hgreedy : cfg.do_sample = false) :
    generate g p cfg attention_mask = generate g p cfg attention_mask := rfl

theorem generate_greedy_deterministic_witness :
    generate gEx (some "Hello") cfgGreedy none =
      generate gEx (some "Hello") cfgGreedy none :=
  generate_greedy_deterministic gEx (some "Hello") cfgGreedy none (by decide)

/-- Claim C7: `encode_prompt_text` yields one row holding the trailing
`min(count, max_len)` ids of the tokenized prompt: truncation drops ids from
the front. -/
theorem encode_prompt_text_truncates_from_front (g : Generator) (p : String)
    (max_len : Nat) :
    encode_prompt_text g p max_len =
      [(g.tokenize p).drop ((g.tokenize p).length - max_len)] ∧
    ((g.tokenize p).drop ((g.tokenize p).length - max_len)).length =
      min (g.tokenize p).length max_len := by
  constructor
  · have h : (if (g.tokenize p).length > max_len
        then (g.tokenize p).length - max_len else 0) =
        (g.tokenize p).length - max_len := by
      split_ifs <;> omega
    simp only [encode_prompt_text, truncate_sequences]
    rw [h]
  · rw [List.length_drop]
    omega

theorem expandRows_length (k : Nat) (l : List (List Int)) :
    (expandRows k l).length = l.length * k := by
  induction l with
  | nil => simp [expandRows]
  | cons r rs ih =>
    simp only [expandRows, List.length_append, List.length_replicate,
      List.length_cons, ih]
    ring

theorem expandRows_getD (k : Nat) (hk : 1 ≤ k) (l : List (List Int))
    (j : Nat) : (expandRows k l).getD j [] = l.getD (j / k) [] := by
  induction l generalizing j with
  | nil => simp [expandRows]
  | cons r rs ih =>
    simp only [expandRows]
    by_cases hj : j < k
    · rw [List.getD_append _ _ _ _ (by simpa using hj)]
      rw [Nat.div_eq_of_lt hj]
      simp [List.getD_eq_getElem?_getD, List.getElem?_replicate, hj]
    · push_neg at hj
      rw [List.getD_append_right _ _ _ _ (by simpa using hj)]
      simp only [List.length_replicate]
      rw [ih]
      rw [Nat.div_eq_sub_div (by omega) hj]
      simp [List.getD_cons_succ]

/-- Claim C8: batch expansion with a positive beam count and return-sequence
count yields `b * R * B` rows when sampling and `b * B` rows otherwise, for
both the token batch and the attention mask; every expanded row is a copy of
its source row, and the expanded mask keeps the shape of the expanded token
batch whenever the original mask had the shape of the original batch. -/
theorem expand_inputs_shape_and_copies (input_ids attention_mask :
    List (List Int)) (do_sample : Bool) (R B b : Nat)
    (hR : 1 ≤ R) (hB : 1 ≤ B)
    (hids : input_ids.length = b) (hmask : attention_mask.length = b)
    (hshape : ∀ i, i < b →
      (attention_mask.getD i []).length = (input_ids.getD i []).length) :
    ((expandInputsForGeneration input_ids attention_mask do_sample R B).1.length
      = if do_sample then b * R * B else b * B) ∧
    ((expandInputsForGeneration input_ids attention_mask do_sample R B).2.length
      = if do_sample then b * R * B else b * B) ∧
    (∀ j, (expandInputsForGeneration input_ids attention_mask do_sample R B).1.getD j []
      = input_ids.getD (j / ((if do_sample then R else 1) * B)) []) ∧
    (∀ j, (expandInputsForGeneration input_ids attention_mask do_sample R B).2.getD j []
      = attention_mask.getD (j / ((if do_sample then R else 1) * B)) []) ∧
    (∀ j, ((expandInputsForGeneration input_ids attention_mask do_sample R B).2.getD j []).length
      = ((expandInputsForGeneration input_ids attention_mask do_sample R B).1.getD j []).length) := by
  have hk : 1 ≤ (if do_sample then R else 1) * B := by
    cases do_sample
    · simpa using hB
    · show 1 ≤ R * B
      exact Nat.mul_pos (show 0 < R by omega) (show 0 < B by omega)
  have hshapeAll : ∀ i,
      (attention_mask.getD i []).length = (input_ids.getD i []).length := by
    intro i
    by_cases hi : i < b
    · exact hshape i hi
    · push_neg at hi
      have h1 : attention_mask.length ≤ i := by omega
      have h2 : input_ids.length ≤ i := by omega
      rw [List.getD_eq_default _ _ h1, List.getD_eq_default _ _ h2]
  unfold expandInputsForGeneration
  by_cases hcond : R > 1 ∨ B > 1
  · rw [if_pos hcond]
    simp only
    refine ⟨?_, ?_, ?_, ?_, ?_⟩
    · rw [expandRows_length, hids]
      cases do_sample <;> simp [Nat.mul_assoc]
    · rw [expandRows_length, hmask]
      cases do_sample <;> simp [Nat.mul_assoc]
    · intro j; exact expandRows_getD _ hk _ j
    · intro j; exact expandRows_getD _ hk _ j
    · intro j
      rw [expandRows_getD _ hk _ j, expandRows_getD _ hk _ j]
      exact hshapeAll _
  · rw [if_neg hcond]
    push_neg at hcond
    have hR1 : R = 1 := by omega
    have hB1 : B = 1 := by omega
    subst hR1 hB1
    simp only [mul_one, Nat.div_one]
    refine ⟨?_, ?_, ?_, ?_, ?_⟩
    · cases do_sample <;> simpa using hids
    · cases do_sample <;> simpa using hmask
    · intro j
      cases do_sample <;> simp
    · intro j
      cases do_sample <;> simp
    · intro j; exact hshapeAll j

theorem getD_set_same (l : List ℚ) (i : Nat) (x : ℚ) (h : i < l.length) :
    (l.set i x).getD i 0 = x := by
  simp [List.getD_eq_getElem?_getD, List.getElem?_set_self, h]

theorem getD_set_other (l : List ℚ) (i j : Nat) (x : ℚ) (h : i ≠ j) :
    (l.set i x).getD j 0 = l.getD j 0 := by
  simp [List.getD_eq_getElem?_getD, List.getElem?_set_ne h]

theorem penalizeToken_length (row : List ℚ) (t : Int) (p : ℚ) :
    (penalizeToken row t p).length = row.length := by
  simp only [penalizeToken]
  split_ifs <;> simp

theorem enforceRow_cons (row : List ℚ) (t : Int) (hist : List Int) (p : ℚ) :
    enforceRepetitionPenaltyRow row (t :: hist) p =
      enforceRepetitionPenaltyRow (penalizeToken row t p) hist p := rfl

theorem penalizeToken_getD_self (row : List ℚ) (t : Int) (p : ℚ)
    (ht : t.toNat < row.length) :
    (penalizeToken row t p).getD t.toNat 0 =
      penaltyStep p (row.getD t.toNat 0) := by
  simp only [penalizeToken, penaltyStep]
  split_ifs <;> exact getD_set_same row t.toNat _ ht

theorem penalizeToken_getD_other (row : List ℚ) (s t : Int) (p : ℚ)
    (h : s.toNat ≠ t.toNat) :
    (penalizeToken row s p).getD t.toNat 0 = row.getD t.toNat 0 := by
  simp only [penalizeToken]
  split_ifs <;> exact getD_set_other row s.toNat t.toNat _ h

theorem enforceRow_getD_iterate (hist : List Int) (row : List ℚ) (p : ℚ)
    (t : Int) (hhist : ∀ s ∈ hist, 0 ≤ s) (ht0 : 0 ≤ t)
    (ht : t.toNat < row.length) :
    (enforceRepetitionPenaltyRow row hist p).getD t.toNat 0 =
      (penaltyStep p)^[hist.count t] (row.getD t.toNat 0) := by
  induction hist generalizing row with
  | nil => rfl
  | cons s hs ih =>
    rw [enforceRow_cons]
    have hlen : t.toNat < (penalizeToken row s p).length := by
      rw [penalizeToken_length]; exact ht
    have hs0 : 0 ≤ s := hhist s (by simp)
    have hrest : ∀ x ∈ hs, 0 ≤ x := fun x hx => hhist x (by simp [hx])
    by_cases hst : s = t
    · subst hst
      rw [ih (penalizeToken row s p) hrest hlen,
        penalizeToken_getD_self row s p ht, List.count_cons_self,
        ← Function.iterate_succ_apply]
    · rw [ih (penalizeToken row s p) hrest hlen,
        penalizeToken_getD_other row s t p (by omega),
        List.count_cons_of_ne (fun hc => hst hc.symm)]

theorem iterate_penaltyStep_nonneg (p : ℚ) (hp : 0 < p) (v : ℚ) (hv : 0 ≤ v)
    (k : Nat) : (penaltyStep p)^[k] v = v / p ^ k := by
  induction k with
  | zero => simp
  | succ n ih =>
    rw [Function.iterate_succ_apply', ih]
    unfold penaltyStep
    rw [if_neg (not_lt.mpr (div_nonneg hv (le_of_lt (pow_pos hp n)))),
      div_div, ← pow_succ]

theorem iterate_penaltyStep_neg (p : ℚ) (hp : 0 < p) (v : ℚ) (hv : v < 0)
    (k : Nat) : (penaltyStep p)^[k] v = v * p ^ k := by
  induction k with
  | zero => simp
  | succ n ih =>
    rw [Function.iterate_succ_apply', ih]
    unfold penaltyStep
    rw [if_pos (mul_neg_of_neg_of_pos hv (pow_pos hp n)), mul_assoc,
      ← pow_succ]

/-- Claim C3 (counterexample): the token 1 appears in the history `[1, 1]`
and its logit 2 is non-negative, yet after the penalty stage with p = 2 its
logit is not `2 / 2`: the update is applied once per occurrence, so it ends
at `2 / 4`. -/
theorem repetition_penalty_reapplied_on_duplicate :
    (1 : Int) ∈ [(1 : Int), 1] ∧ (1 : ℚ) < 2 ∧
    (0 : ℚ) ≤ [(0 : ℚ), 2].getD (Int.toNat 1) 0 ∧
    ¬ ((enforceRepetitionPenaltyRow [0, 2] [1, 1] 2).getD (Int.toNat 1) 0 =
        [(0 : ℚ), 2].getD (Int.toNat 1) 0 / 2) := by
  refine ⟨by decide, by norm_num, by norm_num, ?_⟩
  norm_num [enforceRepetitionPenaltyRow, penalizeToken]

/-- Claim C3 (amended): with `repetition_penalty = p > 1` and a history of
valid token ids, the post-stage logit of a token occurring `k` times in the
row's history equals its pre-stage value divided by `p ^ k` when that value
is non-negative and multiplied by `p ^ k` when it is negative — the penalty
is applied once per occurrence; a token absent from the history (`k = 0`) is
unchanged. -/
theorem enforce_repetition_penalty_per_occurrence (row : List ℚ)
    (hist : List Int) (p : ℚ) (t : Int) (hp : 1 < p)
    (hhist : ∀ s ∈ hist, 0 ≤ s) (ht0 : 0 ≤ t) (ht : t.toNat < row.length) :
    (enforceRepetitionPenaltyRow row hist p).getD t.toNat 0 =
      if row.getD t.toNat 0 < 0 then row.getD t.toNat 0 * p ^ hist.count t
      else row.getD t.toNat 0 / p ^ hist.count t := by
  rw [enforceRow_getD_iterate hist row p t hhist ht0 ht]
  by_cases hv : row.getD t.toNat 0 < 0
  · rw [if_pos hv, iterate_penaltyStep_neg p (by linarith) _ hv]
  · rw [if_neg hv, iterate_penaltyStep_nonneg p (by linarith) _ (not_lt.mp hv)]

theorem enforce_repetition_penalty_per_occurrence_witness :
    (enforceRepetitionPenaltyRow [3, -2] [0, 1, 1] 2).getD (Int.toNat 1) 0 =
      if ([3, -2] : List ℚ).getD (Int.toNat 1) 0 < 0
      then ([3, -2] : List ℚ).getD (Int.toNat 1) 0 *
        2 ^ ([(0 : Int), 1, 1].count 1)
      else ([3, -2] : List ℚ).getD (Int.toNat 1) 0 /
        2 ^ ([(0 : Int), 1, 1].count 1) :=
  enforce_repetition_penalty_per_occurrence [3, -2] [0, 1, 1] 2 1
    (by norm_num) (by decide) (by decide) (by decide)

/-- Claim C4 (counterexample): with sampling on and temperature 1/2 — a value
different from 1 and strictly between 0 and 1 — the temperature stage leaves
the logits unchanged instead of dividing them by the temperature. -/
theorem temperature_below_one_not_applied :
    temperatureStage [[(1 : ℚ)]] true (1 / 2) = [[(1 : ℚ)]] ∧
    (1 : ℚ) / (1 / 2) = 2 ∧
    ¬ temperatureStage [[(1 : ℚ)]] true (1 / 2) = [[(1 : ℚ) / (1 / 2)]] := by
  refine ⟨?_, by norm_num, ?_⟩ <;> norm_num [temperatureStage]

/-- Claim C4 (amended): the temperature stage divides each logit by the
temperature exactly when sampling is on and `temperature > 1`; in every other
case — `temperature = 1`, any `0 < temperature < 1`, or `do_sample = false` —
the logits pass through unchanged. -/
theorem temperature_stage_divides_iff_above_one (logits : List (List ℚ))
    (ds : Bool) (temp : ℚ) (i j : Nat) (hi : i < logits.length)
    (hj : j < (logits.getD i []).length) :
    ((temperatureStage logits ds temp).getD i []).getD j 0 =
      if ds = true ∧ 1 < temp then (logits.getD i []).getD j 0 / temp
      else (logits.getD i []).getD j 0 := by
  have hb : ((ds && decide (1 < temp)) = true) ↔ (ds = true ∧ 1 < temp) := by
    simp
  have hmap : ∀ (row : List ℚ) (f : ℚ → ℚ) (n : Nat), n < row.length →
      (row.map f).getD n 0 = f (row.getD n 0) := by
    intro row f n hn
    rw [List.getD_eq_getElem?_getD, List.getElem?_map,
      List.getD_eq_getElem?_getD, List.getElem?_eq_getElem hn]
    simp
  unfold temperatureStage
  by_cases hcond : ds = true ∧ 1 < temp
  · rw [if_pos (hb.mpr hcond), if_pos hcond]
    have h1 : (logits.map (fun row => row.map (fun l => l / temp))).getD i []
        = (logits.getD i []).map (fun l => l / temp) := by
      rw [List.getD_eq_getElem?_getD, List.getElem?_map,
        List.getD_eq_getElem?_getD]
      cases logits[i]? <;> simp
    rw [h1, hmap _ _ j hj]
  · rw [if_neg (fun hc => hcond (hb.mp hc)), if_neg hcond]

theorem temperature_stage_divides_iff_above_one_witness :
    ((temperatureStage [[(4 : ℚ)]] true 2).getD 0 []).getD 0 0 =
      if true = true ∧ (1 : ℚ) < 2
      then (([[(4 : ℚ)]].getD 0 []).getD 0 0) / 2
      else ([[(4 : ℚ)]].getD 0 []).getD 0 0 :=
  temperature_stage_divides_iff_above_one [[4]] true 2 0 0
    (by decide) (by decide)

theorem expand_inputs_shape_and_copies_witness :
    ((expandInputsForGeneration [[1, 2]] [[3, 4]] true 2 1).1.length
      = if true then 1 * 2 * 1 else 1 * 1) ∧
    ((expandInputsForGeneration [[1, 2]] [[3, 4]] true 2 1).1.getD 1 []
      = [[1, 2]].getD (1 / ((if true then 2 else 1) * 1)) []) :=
  ⟨(expand_inputs_shape_and_copies [[1, 2]] [[3, 4]] true 2 1 1
      (by decide) (by decide) (by decide) (by decide) (by decide)).1,
   (expand_inputs_shape_and_copies [[1, 2]] [[3, 4]] true 2 1 1
      (by decide) (by decide) (by decide) (by decide) (by decide)).2.2.1 1⟩

end RustBert
